import Mathlib

/-!
Verification of the Soroban-Registry backend handlers
(`backend/api/src/handlers.rs`) against its natural-language specification.

The handlers are async Rust functions over a Postgres pool. We embed them
shallowly: the database is an explicit `Db` value (lists of rows plus id
counters and a clock), each sqlx call is replaced by its semantic effect on
that value, and store availability is an explicit boolean oracle, so a
handler that early-returns on a failed store call becomes a function
returning `Except` together with the store state left behind. Integer
fields (`page`, `page_size`, counters, timestamps) are modelled as `Nat`.
HTTP status codes are plain `Nat`s (`200`, `409`, `500`, `503`).

For the search endpoint we embed the code twice, at two levels of the same
function `list_contracts`:
* `build_queries` reproduces the SQL *command text* the code assembles by
  string concatenation (lines 95-120 of handlers.rs), for claims about the
  text itself;
* `list_contracts` gives the relational semantics of executing those
  queries against a table: filter, sort by `created_at` descending, slice,
  count. Because the code interpolates the raw term into the `ILIKE`
  pattern, the free-text filter is modelled as the SQL case-insensitive
  pattern match of `%term%`, with `%` and `_` inside the term acting as
  wildcards (`likeMatch`). A term holding a single quote or the pattern
  escape `\` — or a category holding a single quote — breaks the quoted
  SQL apart, so the text sent is a different (or malformed) query with no
  clean relational meaning; `filterInterpolationSafe` delimits the fragment
  where `list_contracts` is the meaning of the command text, and the search
  semantics theorem is stated on that fragment. The order of the `table`
  list is the store's internal row order; `ORDER BY created_at DESC`
  constrains only the key, so ties surface the store's internal order,
  which we model by sorting stably-in-`table`-order.
-/

namespace SorobanRegistry

/-! ### Data model (from `shared` types used by handlers.rs) -/

/-- A row of the `contracts` relation. -/
structure Contract where
  id : Nat
  contract_id : String
  wasm_hash : String
  name : String
  description : String
  publisher_id : Nat
  network : String
  category : String
  tags : List String
  is_verified : Bool
  created_at : Nat
deriving DecidableEq, Repr

/-- A row of the `publishers` relation (unique `stellar_address`). -/
structure PublisherRow where
  id : Nat
  stellar_address : String
  username : Option String := none
  email : Option String := none
  github_url : Option String := none
  website : Option String := none
deriving DecidableEq, Repr

/-- The store: the two relations the publish/registration handlers touch,
fresh-id counters standing for server-generated ids, and a clock standing
for the row-creation timestamp default. -/
structure Db where
  publishers : List PublisherRow
  contracts : List Contract
  nextPublisherId : Nat
  nextContractId : Nat
  now : Nat
deriving DecidableEq, Repr

/-- Query-string parameters of the search endpoint (`ContractSearchParams`). -/
structure ContractSearchParams where
  query : Option String := none
  verified_only : Option Bool := none
  category : Option String := none
  page : Option Nat := none
  page_size : Option Nat := none
deriving DecidableEq, Repr

/-- Body of the publish endpoint (`PublishRequest`). -/
structure PublishRequest where
  contract_id : String
  publisher_address : String
  name : String
  description : String
  network : String
  category : String
  tags : List String
deriving DecidableEq, Repr

/-- Body of the create-publisher endpoint (the `Publisher` payload). -/
structure PublisherInput where
  stellar_address : String
  username : Option String := none
  email : Option String := none
  github_url : Option String := none
  website : Option String := none
deriving DecidableEq, Repr

/-- Body of the verification endpoint (`VerifyRequest`). -/
structure VerifyRequest where
  contract_id : String
deriving DecidableEq, Repr

/-- The paginated search response (`PaginatedResponse<Contract>`). -/
structure PaginatedResponse where
  items : List Contract
  total : Nat
  page : Nat
  page_size : Nat
deriving DecidableEq, Repr

/-- Decidable equality for handler results, so concrete runs can be
checked by evaluation. -/
instance {ε α : Type} [DecidableEq ε] [DecidableEq α] : DecidableEq (Except ε α)
  | .ok a, .ok b =>
    if h : a = b then .isTrue (congrArg Except.ok h)
    else .isFalse fun hc => h (Except.ok.inj hc)
  | .ok _, .error _ => .isFalse fun hc => Except.noConfusion hc
  | .error _, .ok _ => .isFalse fun hc => Except.noConfusion hc
  | .error e, .error f =>
    if h : e = f then .isTrue (congrArg Except.error h)
    else .isFalse fun hc => h (Except.error.inj hc)

/-- HTTP status codes as used by the handlers. -/
def internalServerError : Nat := 500

/-- The Conflict status the spec's error taxonomy demands for uniqueness
violations on the non-idempotent create; the code never produces it. -/
def conflictStatus : Nat := 409

/-- Availability oracle for the store calls a handler makes: `true` means
the corresponding sqlx call succeeds at the store, `false` that it fails
(pool unavailable, constraint violation surfaced by the store, ...). -/
structure StoreOracle where
  publisherInsertOk : Bool
  contractInsertOk : Bool
deriving DecidableEq, Repr

/-! ### Search: normalization and command text (handlers.rs lines 90-120) -/

/-- `params.page.unwrap_or(1).max(1)` (line 90). -/
def effPage (p : Option Nat) : Nat := (p.getD 1).max 1

/-- `params.page_size.unwrap_or(20).min(100)` (line 91): only an upper
clamp, no lower clamp. -/
def effPageSize (p : Option Nat) : Nat := (p.getD 20).min 100

/-- `let offset = (page - 1) * page_size` (line 92). -/
def searchOffset (params : ContractSearchParams) : Nat :=
  (effPage params.page - 1) * effPageSize params.page_size

/-- Modelled from the spec: the page-size normalization the spec
prescribes, `clamp(requested, 1, 100)` defaulting to 20 when absent.
Stated for comparison with the code's `effPageSize`. -/
def specClampPageSize (p : Option Nat) : Nat := (min (p.getD 20) 100).max 1

/-- A single quote character, for SQL text. -/
def sq : String := "\x27"

/-- Line 99-102: `format!(" AND (name ILIKE ..%q%.. OR description ILIKE
..%q%..)")` — the untrusted term is pasted into the command text. -/
def searchClause (q : String) : String :=
  " AND (name ILIKE " ++ sq ++ "%" ++ q ++ "%" ++ sq ++
  " OR description ILIKE " ++ sq ++ "%" ++ q ++ "%" ++ sq ++ ")"

/-- Line 115: `format!(" AND category = ..category..")`. -/
def categoryClause (c : String) : String :=
  " AND category = " ++ sq ++ c ++ sq

/-- Lines 95-120: the pair (row query text, count query text) the handler
assembles and sends to the store. No bound parameters are used. -/
def build_queries (params : ContractSearchParams) : String × String :=
  let page_size := effPageSize params.page_size
  let offset := searchOffset params
  let q0 := "SELECT * FROM contracts WHERE 1=1"
  let c0 := "SELECT COUNT(*) FROM contracts WHERE 1=1"
  let step1 : String × String :=
    match params.query with
    | some q => (q0 ++ searchClause q, c0 ++ searchClause q)
    | none => (q0, c0)
  let step2 : String × String :=
    match params.verified_only with
    | some true => (step1.1 ++ " AND is_verified = true", step1.2 ++ " AND is_verified = true")
    | _ => step1
  let step3 : String × String :=
    match params.category with
    | some c => (step2.1 ++ categoryClause c, step2.2 ++ categoryClause c)
    | none => step2
  (step3.1 ++ " ORDER BY created_at DESC LIMIT " ++ toString page_size ++
     " OFFSET " ++ toString offset,
   step3.2)

/-! ### Search: relational semantics (handlers.rs lines 122-132) -/

/-- SQL LIKE pattern matching over character lists (pattern first):
`%` matches any sequence (any split of the remaining string, via its
tails), `_` matches exactly one character, and any other pattern character
matches itself. Escape sequences do not arise here: terms holding the
escape character `\` are outside the guarded fragment (see
`filterInterpolationSafe`). -/
def likeMatch : List Char → List Char → Bool
  | [], s => s.isEmpty
  | p :: ps, s =>
    if p == '%' then s.tails.any (fun t => likeMatch ps t)
    else
      match s with
      | [] => false
      | c :: t => (p == '_' || p == c) && likeMatch ps t

/-- The characters of a string, lowercased one by one (`ILIKE` compares
case-insensitively). -/
def lowerChars (s : String) : List Char := s.toList.map Char.toLower

/-- `hay ILIKE pattern`: the case-insensitive SQL pattern match performed
by the store for the comparisons in the built query. -/
def ilike (hay pattern : String) : Bool :=
  likeMatch (lowerChars pattern) (lowerChars hay)

/-- The free-text filter (lines 98-105): the code interpolates the raw
term into the pattern, so the store evaluates `name ILIKE` / `description
ILIKE` against the pattern `%term%`, any `%` or `_` inside the term acting
as a wildcard. -/
def matchesQuery (q : Option String) (c : Contract) : Bool :=
  match q with
  | none => true
  | some t =>
    ilike c.name ("%" ++ t ++ "%") || ilike c.description ("%" ++ t ++ "%")

/-- The verified-only filter (lines 107-112): restricts only when the flag
is present and true. -/
def matchesVerified (v : Option Bool) (c : Contract) : Bool :=
  match v with
  | none => true
  | some b => !b || c.is_verified

/-- The category filter (lines 114-118): exact match when present. -/
def matchesCategory (cat : Option String) (c : Contract) : Bool :=
  match cat with
  | none => true
  | some s => c.category == s

/-- Conjunction of the three optional filters (the `WHERE` clause built by
lines 95-118). -/
def matchesFilter (params : ContractSearchParams) (c : Contract) : Bool :=
  matchesQuery params.query c && matchesVerified params.verified_only c &&
    matchesCategory params.category c

/-- The single-quote character (decimal 39). -/
def sqChar : Char := Char.ofNat 39

/-- The SQL pattern-escape character, backslash (decimal 92). -/
def backslashChar : Char := Char.ofNat 92

/-- The requests for which the concatenated command text of
`build_queries` is still the intended well-formed query, so that
`list_contracts` is its relational meaning: the free-text term holds no
single quote (which would break the pattern's string literal open —
claim C1 records the interpolation defect) and no pattern-escape
backslash (which the store would treat as an escape), and the category
holds no single quote. Outside this fragment the store receives a
different or malformed query and no clean relational semantics applies. -/
def filterInterpolationSafe (params : ContractSearchParams) : Bool :=
  (params.query.getD "").toList.all
    (fun c => !(c == sqChar) && !(c == backslashChar)) &&
  (params.category.getD "").toList.all (fun c => !(c == sqChar))

/-- The key order of `ORDER BY created_at DESC`: descending creation time. -/
def byCreatedDesc (a b : Contract) : Prop := b.created_at ≤ a.created_at

instance : DecidableRel byCreatedDesc := fun a b => Nat.decLe b.created_at a.created_at

instance : IsTotal Contract byCreatedDesc :=
  ⟨fun a b => (Nat.le_total b.created_at a.created_at).imp id id⟩

instance : IsTrans Contract byCreatedDesc :=
  ⟨fun _ _ _ h1 h2 => Nat.le_trans h2 h1⟩

/-- The store's result order for `ORDER BY created_at DESC`: sorted on the
key, ties resolved by the store's internal row order (the order of the
input list), which the command text does not constrain. -/
def sortDesc (l : List Contract) : List Contract := l.insertionSort byCreatedDesc

/-- Lines 86-132, `list_contracts`: normalize pagination, filter, order by
creation time descending, slice `[offset, offset+page_size)`, and count the
same filtered set for `total`. `table` is the `contracts` relation in store
order. -/
def list_contracts (table : List Contract) (params : ContractSearchParams) :
    PaginatedResponse :=
  let page := effPage params.page
  let page_size := effPageSize params.page_size
  let offset := (page - 1) * page_size
  let filtered := table.filter (matchesFilter params)
  { items := ((sortDesc filtered).drop offset).take page_size
    total := filtered.length
    page := page
    page_size := page_size }

/-! ### Publisher registration and publication (handlers.rs lines 168-239) -/

/-- The row predicate for a given external address. -/
def addrMatches (addr : String) (p : PublisherRow) : Bool :=
  p.stellar_address == addr

/-- Number of publisher rows carrying `addr`. The store's uniqueness
constraint on `stellar_address` is the invariant `countAddr db addr ≤ 1`. -/
def countAddr (db : Db) (addr : String) : Nat :=
  db.publishers.countP (addrMatches addr)

/-- Lines 173-181: `INSERT INTO publishers (stellar_address) VALUES ($1)
ON CONFLICT (stellar_address) DO UPDATE SET stellar_address =
EXCLUDED.stellar_address RETURNING *` — the conflict-tolerant upsert.
On conflict the existing row is returned with its address reaffirmed (no
other field touched); otherwise a fresh row is inserted and returned. -/
def upsertPublisher (db : Db) (addr : String) : PublisherRow × Db :=
  match db.publishers.find? (addrMatches addr) with
  | some p => (p, db)
  | none =>
    let p : PublisherRow := { id := db.nextPublisherId, stellar_address := addr }
    (p, { db with publishers := db.publishers ++ [p],
                  nextPublisherId := db.nextPublisherId + 1 })

/-- Lines 168-205, `publish_contract`: upsert the publisher, set
`wasm_hash` to the literal `"placeholder_hash"` (line 184 — the ledger is
never consulted), then insert the contract row. Each store call that fails
maps to 500 and early-returns, leaving the effects already performed in
place (there is no wrapping transaction). -/
def publish_contract (db : Db) (req : PublishRequest) (o : StoreOracle) :
    Db × Except Nat Contract :=
  if o.publisherInsertOk then
    let pr := upsertPublisher db req.publisher_address
    let wasm_hash := "placeholder_hash"
    if o.contractInsertOk then
      let c : Contract :=
        { id := pr.2.nextContractId
          contract_id := req.contract_id
          wasm_hash := wasm_hash
          name := req.name
          description := req.description
          publisher_id := pr.1.id
          network := req.network
          category := req.category
          tags := req.tags
          is_verified := false
          created_at := pr.2.now }
      ({ pr.2 with contracts := pr.2.contracts ++ [c],
                   nextContractId := pr.2.nextContractId + 1 },
       Except.ok c)
    else (pr.2, Except.error internalServerError)
  else (db, Except.error internalServerError)

/-- Lines 220-239, `create_publisher`: a plain `INSERT INTO publishers
(stellar_address, username, email, github_url, website)` with no ON
CONFLICT clause. A uniqueness violation at the store is an sqlx error, and
the handler's `map_err` collapses every store error to 500. `storeOk` is
the availability oracle for the insert itself. -/
def create_publisher (db : Db) (p : PublisherInput) (storeOk : Bool) :
    Db × Except Nat PublisherRow :=
  if storeOk then
    if db.publishers.any (addrMatches p.stellar_address) then
      (db, Except.error internalServerError)
    else
      let row : PublisherRow :=
        { id := db.nextPublisherId
          stellar_address := p.stellar_address
          username := p.username
          email := p.email
          github_url := p.github_url
          website := p.website }
      ({ db with publishers := db.publishers ++ [row],
                 nextPublisherId := db.nextPublisherId + 1 },
       Except.ok row)
  else (db, Except.error internalServerError)

/-! ### Health and verification (handlers.rs lines 17-55 and 208-217) -/

/-- The JSON body the health endpoint returns. -/
structure HealthBody where
  status : String
  version : String
  uptime_secs : Nat
deriving DecidableEq, Repr

/-- Lines 17-55, `health_check`: the handler's return type is a plain
`(StatusCode, Json)` pair, not a `Result`, so it cannot return an error;
the store probe's outcome (`db_ok`) is translated into a status value, and
`uptime_secs` (a `u64`, hence `Nat`) is reported in both branches. -/
def health_check (uptime_secs : Nat) (db_ok : Bool) : Nat × HealthBody :=
  if db_ok then (200, { status := "ok", version := "0.1.0", uptime_secs := uptime_secs })
  else (503, { status := "degraded", version := "0.1.0", uptime_secs := uptime_secs })

/-- The acknowledgement body of the verification endpoint. -/
structure VerifyAck where
  status : String
  message : String
deriving DecidableEq, Repr

/-- Lines 208-217, `verify_contract`: the handler ignores both the state
and the request body and unconditionally returns `Ok` with a `pending`
acknowledgement; no store call is made, so the store (`db`) is returned
untouched and no availability oracle appears. -/
def verify_contract (db : Db) (_req : VerifyRequest) : Db × Except Nat VerifyAck :=
  (db, Except.ok { status := "pending", message := "Verification started" })

/-! ### Concrete fixtures used by witnesses and counterexamples -/

/-- An empty store. -/
def dbEmpty : Db :=
  { publishers := [], contracts := [], nextPublisherId := 1, nextContractId := 1, now := 0 }

/-- A publish request for a never-before-seen address. -/
def reqC1 : PublishRequest :=
  { contract_id := "CADL3X"
    publisher_address := "GPUB1"
    name := "token"
    description := "a token contract"
    network := "testnet"
    category := "defi"
    tags := ["token"] }

/-- A store already holding a publisher with address `GPUB1`. -/
def dbOneA : Db :=
  { publishers := [{ id := 7, stellar_address := "GPUB1" }]
    contracts := []
    nextPublisherId := 8
    nextContractId := 1
    now := 5 }

/-- A create-publisher payload reusing the taken address `GPUB1`. -/
def inputA : PublisherInput :=
  { stellar_address := "GPUB1", username := some "alice" }

/-- Two contracts sharing a creation timestamp, for tie-break analysis. -/
def cAlpha : Contract :=
  { id := 1, contract_id := "CA", wasm_hash := "h1", name := "alpha"
    description := "first", publisher_id := 1, network := "testnet"
    category := "defi", tags := [], is_verified := true, created_at := 100 }

/-- Second contract with the same `created_at` as `cAlpha`. -/
def cBeta : Contract :=
  { id := 2, contract_id := "CB", wasm_hash := "h2", name := "beta"
    description := "second", publisher_id := 1, network := "testnet"
    category := "defi", tags := [], is_verified := true, created_at := 100 }

/-- A search request inside the guarded fragment (no quotes, no escapes)
exercising the term and category filters. -/
def paramsW : ContractSearchParams :=
  { query := some "alp", category := some "defi" }

/-! ### Helper lemmas about the publisher upsert -/

/-- Running the upsert twice with the same address returns, the second
time, exactly the pair the first run returned: the same row (hence the
same id) and an unchanged store. -/
theorem upsertPublisher_idem (db : Db) (addr : String) :
    upsertPublisher (upsertPublisher db addr).2 addr = upsertPublisher db addr := by
  cases hf : db.publishers.find? (addrMatches addr) with
  | some p =>
    simp only [upsertPublisher, hf]
  | none =>
    simp only [upsertPublisher, hf]
    simp [List.find?_append, hf, addrMatches]

/-- After an upsert the store holds exactly one row for the address,
provided the store's uniqueness constraint (at most one row) held
before. -/
theorem upsertPublisher_count (db : Db) (addr : String)
    (h : countAddr db addr ≤ 1) :
    countAddr (upsertPublisher db addr).2 addr = 1 := by
  cases hf : db.publishers.find? (addrMatches addr) with
  | some p =>
    have hp : addrMatches addr p = true := List.find?_some hf
    have hm : p ∈ db.publishers := List.mem_of_find?_eq_some hf
    have hpos : 0 < db.publishers.countP (addrMatches addr) :=
      List.countP_pos_iff.mpr ⟨p, hm, hp⟩
    simp only [upsertPublisher, hf]
    unfold countAddr at h ⊢
    omega
  | none =>
    have h0 : db.publishers.countP (addrMatches addr) = 0 :=
      List.countP_eq_zero.mpr (List.find?_eq_none.mp hf)
    simp only [upsertPublisher, hf]
    unfold countAddr
    simp [List.countP_append, h0, addrMatches]

/-- The upsert never touches the `contracts` relation. -/
theorem upsertPublisher_contracts (db : Db) (addr : String) :
    (upsertPublisher db addr).2.contracts = db.contracts := by
  cases hf : db.publishers.find? (addrMatches addr) with
  | some p => simp only [upsertPublisher, hf]
  | none => simp only [upsertPublisher, hf]

/-! ### The claims -/

/-- Claim C1: the spec demands that the free-text term and the category be
sent as bound parameters, the command text being identical for every value.
The code instead concatenates both values into the command text (lines
99-102 and 115 of handlers.rs), so the text differs between values: two
filters differing only in the term (resp. only in the category) produce
different command texts. -/
theorem C1_command_text_varies :
    (build_queries { query := some "alice" }).1 ≠
      (build_queries { query := some "bob" }).1 ∧
    (build_queries { category := some "defi" }).1 ≠
      (build_queries { category := some "nft" }).1 := by
  constructor <;> decide

/-- Claim C2: the spec demands the content hash be resolved from the
external ledger, with NotFound/NetworkError propagated and no placeholder
substituted. The code never consults the ledger: publishing any request
succeeds and inserts a Contract row whose `wasm_hash` is the hard-coded
string `"placeholder_hash"` (line 184 of handlers.rs). -/
theorem C2_placeholder_hash_inserted :
    ∃ c : Contract,
      (publish_contract dbEmpty reqC1 ⟨true, true⟩).2 = Except.ok c ∧
      c.wasm_hash = "placeholder_hash" ∧
      (publish_contract dbEmpty reqC1 ⟨true, true⟩).1.contracts =
        dbEmpty.contracts ++ [c] :=
  ⟨_, rfl, rfl, rfl⟩

/-- Claim C3, counterexample: the claim says a requested page size of 0 is
served as 1 (`clamp(0, 1, 100) = 1`); the code's `unwrap_or(20).min(100)`
has no lower clamp and serves it as 0. -/
theorem C3_counterexample : effPageSize (some 0) ≠ specClampPageSize (some 0) := by
  decide

/-- Claim C3 (amended): the effective page equals the requested page when
it is at least 1 and 1 otherwise (also when absent); the effective page
size equals min(requested, 100), defaulting to 20 when absent, with no
lower clamp (a requested page size of 0 is served as 0); and the slice
offset used is (page - 1) * page_size. -/
theorem C3_pagination_normalization (table : List Contract)
    (params : ContractSearchParams) :
    (list_contracts table params).page =
      (if 1 ≤ params.page.getD 1 then params.page.getD 1 else 1) ∧
    (list_contracts table params).page_size =
      (if params.page_size.getD 20 ≤ 100 then params.page_size.getD 20 else 100) ∧
    (list_contracts table params).items =
      ((sortDesc (table.filter (matchesFilter params))).drop
          (((list_contracts table params).page - 1) *
            (list_contracts table params).page_size)).take
        ((list_contracts table params).page_size) := by
  refine ⟨?_, ?_, rfl⟩
  · simp only [list_contracts, effPage, Nat.max_def]
    split <;> split <;> omega
  · simp only [list_contracts, effPageSize, Nat.min_def]

/-- Claim C8: the liveness check is a total function into a status/body
pair (the handler's type is not a Result, so no error can reach the
caller); it reports `ok` when the store probe succeeds and `degraded` when
it fails, with the same non-negative uptime in both cases, and the HTTP
code is 200 or 503. -/
theorem C8_health_never_errors (u : Nat) (b : Bool) :
    (health_check u b).2.status = (if b then "ok" else "degraded") ∧
    (health_check u b).2.uptime_secs = u ∧
    0 ≤ (health_check u b).2.uptime_secs ∧
    ((health_check u b).1 = 200 ∨ (health_check u b).1 = 503) := by
  cases b <;> simp [health_check]

/-- Claim C10: the verification endpoint ignores the request and the
store: for every store state and request it performs no store operation
(the store value is returned unchanged), always succeeds, and acknowledges
with status `pending`. -/
theorem C10_verify_always_pending (db : Db) (req : VerifyRequest) :
    verify_contract db req =
      (db, Except.ok { status := "pending", message := "Verification started" }) := rfl

/-- Claim C4: publisher registration by external address is idempotent —
under the store's uniqueness constraint (at most one row per address),
running the get-or-create upsert twice returns a Publisher with the same
id both times, leaves exactly one Publisher row for that address, and the
second run does not change the store. -/
theorem C4_registrar_idempotent (db : Db) (addr : String)
    (h : countAddr db addr ≤ 1) :
    (upsertPublisher (upsertPublisher db addr).2 addr).1.id =
      (upsertPublisher db addr).1.id ∧
    countAddr (upsertPublisher (upsertPublisher db addr).2 addr).2 addr = 1 ∧
    (upsertPublisher (upsertPublisher db addr).2 addr).2 =
      (upsertPublisher db addr).2 := by
  rw [upsertPublisher_idem db addr]
  exact ⟨rfl, upsertPublisher_count db addr h, rfl⟩

/-- Witness for C4 at the empty store and address GPUB1. -/
theorem C4_registrar_idempotent_witness :
    countAddr dbEmpty "GPUB1" ≤ 1 ∧
    ((upsertPublisher (upsertPublisher dbEmpty "GPUB1").2 "GPUB1").1.id =
        (upsertPublisher dbEmpty "GPUB1").1.id ∧
      countAddr (upsertPublisher (upsertPublisher dbEmpty "GPUB1").2 "GPUB1").2
          "GPUB1" = 1 ∧
      (upsertPublisher (upsertPublisher dbEmpty "GPUB1").2 "GPUB1").2 =
        (upsertPublisher dbEmpty "GPUB1").2) :=
  ⟨by decide, C4_registrar_idempotent dbEmpty "GPUB1" (by decide)⟩

/-- Claim C5: if publication fails after the publisher-resolution step
(store refuses the contract insert), the request returns the typed
internal-error failure, creates no Contract row, leaves exactly one
Publisher row for the address (under the uniqueness constraint), and a
retry of the whole request changes nothing: the publisher is neither
removed nor duplicated. In the code the hash-resolution step cannot fail
(it is a constant), so the contract insert is the only failure point after
step 1. -/
theorem C5_failed_publish_leaves_no_contract (db : Db) (req : PublishRequest)
    (h : countAddr db req.publisher_address ≤ 1) :
    (publish_contract db req ⟨true, false⟩).2 = Except.error internalServerError ∧
    (publish_contract db req ⟨true, false⟩).1.contracts = db.contracts ∧
    countAddr (publish_contract db req ⟨true, false⟩).1 req.publisher_address = 1 ∧
    publish_contract (publish_contract db req ⟨true, false⟩).1 req ⟨true, false⟩ =
      ((publish_contract db req ⟨true, false⟩).1, Except.error internalServerError) := by
  have hpub : publish_contract db req ⟨true, false⟩ =
      ((upsertPublisher db req.publisher_address).2,
        Except.error internalServerError) := rfl
  have hpub2 : publish_contract (upsertPublisher db req.publisher_address).2 req
        ⟨true, false⟩ =
      ((upsertPublisher (upsertPublisher db req.publisher_address).2
            req.publisher_address).2,
        Except.error internalServerError) := rfl
  have hsnd : (upsertPublisher (upsertPublisher db req.publisher_address).2
        req.publisher_address).2 =
      (upsertPublisher db req.publisher_address).2 :=
    congrArg Prod.snd (upsertPublisher_idem db req.publisher_address)
  rw [hpub]
  refine ⟨rfl, upsertPublisher_contracts db req.publisher_address,
    upsertPublisher_count db req.publisher_address h, ?_⟩
  rw [hpub2, hsnd]

/-- Witness for C5 at the empty store and the GPUB1 publish request. -/
theorem C5_failed_publish_witness :
    countAddr dbEmpty reqC1.publisher_address ≤ 1 ∧
    ((publish_contract dbEmpty reqC1 ⟨true, false⟩).2 =
        Except.error internalServerError ∧
      (publish_contract dbEmpty reqC1 ⟨true, false⟩).1.contracts =
        dbEmpty.contracts ∧
      countAddr (publish_contract dbEmpty reqC1 ⟨true, false⟩).1
          reqC1.publisher_address = 1 ∧
      publish_contract (publish_contract dbEmpty reqC1 ⟨true, false⟩).1 reqC1
          ⟨true, false⟩ =
        ((publish_contract dbEmpty reqC1 ⟨true, false⟩).1,
          Except.error internalServerError)) :=
  ⟨by decide, C5_failed_publish_leaves_no_contract dbEmpty reqC1 (by decide)⟩

/-- Claim C6, counterexample: the code's ordering is `ORDER BY created_at
DESC` with no tie-break, so the page is not a function of the store
contents — two stores holding the same contracts (a permutation of each
other) whose rows share a creation timestamp return different pages. -/
theorem C6_counterexample :
    ([cAlpha, cBeta].Perm [cBeta, cAlpha]) ∧
    list_contracts [cAlpha, cBeta] {} ≠ list_contracts [cBeta, cAlpha] {} := by
  exact ⟨List.Perm.swap cBeta cAlpha [], by decide⟩

/-- Claim C6 (amended): for every search request in the interpolation-safe
fragment — free-text term without single quote or pattern-escape
backslash, category without single quote, the requests for which the
concatenated command text is still the intended well-formed query — the
returned page is exactly the set of Contracts satisfying the AND of the
supplied filters, where the free-text predicate is the store's
case-insensitive `ILIKE` match of the pattern `%term%` against name or
description (a `%` or `_` inside the interpolated term acts as a
wildcard), `verified_only` restricts to verified rows, and the category
matches exactly; ordered by creation timestamp descending with ties left
in the store-chosen order (no deterministic tie-break), sliced to
`[offset, offset+page_size)`; and the returned total equals the number of
Contracts satisfying that same filter. -/
theorem C6_search_semantics (table : List Contract) (params : ContractSearchParams)
    (_safe : filterInterpolationSafe params = true) :
    (∃ ord : List Contract,
        ord.Perm (table.filter (matchesFilter params)) ∧
        List.Sorted byCreatedDesc ord ∧
        (list_contracts table params).items =
          (ord.drop (searchOffset params)).take (effPageSize params.page_size)) ∧
    (list_contracts table params).total =
      (table.filter (matchesFilter params)).length :=
  ⟨⟨sortDesc (table.filter (matchesFilter params)),
      List.perm_insertionSort byCreatedDesc _,
      List.sorted_insertionSort byCreatedDesc _, rfl⟩, rfl⟩

/-- Witness for C6 (amended) at a two-row table with tied timestamps and a
quote-free, escape-free term-and-category request. -/
theorem C6_search_semantics_witness :
    filterInterpolationSafe paramsW = true ∧
    ((∃ ord : List Contract,
        ord.Perm ([cAlpha, cBeta].filter (matchesFilter paramsW)) ∧
        List.Sorted byCreatedDesc ord ∧
        (list_contracts [cAlpha, cBeta] paramsW).items =
          (ord.drop (searchOffset paramsW)).take (effPageSize paramsW.page_size)) ∧
      (list_contracts [cAlpha, cBeta] paramsW).total =
        ([cAlpha, cBeta].filter (matchesFilter paramsW)).length) :=
  ⟨by decide, C6_search_semantics [cAlpha, cBeta] paramsW (by decide)⟩

/-- Claim C7, counterexample: with address GPUB1 already registered, the
non-idempotent create fails — but with the internal-error status, not the
Conflict status the spec demands: the handler's `map_err` collapses every
store error to 500. -/
theorem C7_counterexample :
    (create_publisher dbOneA inputA true).2 = Except.error internalServerError ∧
    (create_publisher dbOneA inputA true).2 ≠ Except.error conflictStatus := by
  constructor <;> decide

/-- Claim C7 (amended): the non-idempotent publisher creation fails with
InternalError — the uniqueness violation is not distinguished from other
store failures — whenever a Publisher with the supplied address already
exists (leaving the store unchanged), and store unavailability also
surfaces as InternalError. -/
theorem C7_create_error_mapping (db : Db) (p : PublisherInput) (ok : Bool) :
    (db.publishers.any (addrMatches p.stellar_address) = true →
      create_publisher db p ok = (db, Except.error internalServerError)) ∧
    (ok = false →
      create_publisher db p ok = (db, Except.error internalServerError)) := by
  constructor
  · intro h
    cases ok <;> simp [create_publisher, h]
  · intro h
    subst h
    simp [create_publisher]

/-- Witness for C7 (amended) at the store already holding GPUB1: the
conflicting create (store up) and the unavailable-store create both return
the internal error. -/
theorem C7_create_error_mapping_witness :
    dbOneA.publishers.any (addrMatches inputA.stellar_address) = true ∧
    create_publisher dbOneA inputA true = (dbOneA, Except.error internalServerError) ∧
    create_publisher dbOneA inputA false = (dbOneA, Except.error internalServerError) :=
  ⟨by decide,
    (C7_create_error_mapping dbOneA inputA true).1 (by decide),
    (C7_create_error_mapping dbOneA inputA false).2 rfl⟩

/-- Claim C9: every search result satisfies the PaginatedResult invariant:
at most `page_size` items are returned (the effective page size the
response reports), and the reported total is at least the number of items
returned. -/
theorem C9_pagination_invariant (table : List Contract)
    (params : ContractSearchParams) :
    (list_contracts table params).items.length ≤
      (list_contracts table params).page_size ∧
    (list_contracts table params).items.length ≤
      (list_contracts table params).total := by
  simp only [list_contracts, sortDesc, List.length_take, List.length_drop,
    List.length_insertionSort]
  omega

end SorobanRegistry
